import Mathlib

/-!
Verification of the IP-security admission-control core of the
BackendIPSecurtiy repository, embedded shallowly from
src/services/ipsService.js (the canonical service; the inlined variants in
src/unnamed/part_006 through part_009 agree on the behaviors modelled here).

Timestamps are milliseconds as natural numbers.  The Firestore collections
ips_blocklist and users_ips are association lists; the in-process ipsStore
maps are association lists from keys to expiry timestamps.  The geolocation
metadata and the Snort blacklist-rules file updates are omitted: they are
best-effort side channels outside the durable store and the local cache.
-/

namespace IPSec

/-- One document of the ips_blocklist collection, as written by
IPSService.blockIP: fields ip, reason, timestamp (creation), expiresAt and
active. -/
structure BlockEntry where
  ip : String
  reason : String
  createdAt : Nat
  expiresAt : Nat
  active : Bool
deriving DecidableEq

/-- The block-related part of a users_ips document: last known ip, blocked
flag, blockReason and blockUntil. -/
structure UserRecord where
  ip : Option String
  blocked : Bool
  blockReason : Option String
  blockUntil : Option Nat
deriving DecidableEq

/-- One per-subject rate window: count and firstRequest, as kept by
IPSService.checkRateLimit. -/
structure RateData where
  count : Nat
  firstRequest : Nat
deriving DecidableEq

/-- One document of the ips_suspicious_activity collection (the audit record
persisted by IPSService.analyzeTraffic for a single suspicious event). -/
structure AuditRecord where
  ip : String
  timestamp : Nat
deriving DecidableEq

/-- The observable state of the service: durable blocklist and user
documents, the in-process caches of blocked IPs and users, the rate-limit
windows, the suspicious-activity counters and the audit collection. -/
structure IPSState where
  blocklist : List BlockEntry
  users : List (String × UserRecord)
  cacheIPs : List (String × Nat)
  cacheUsers : List (String × Nat)
  rateLimits : List (String × RateData)
  suspicious : List (String × Nat)
  audit : List AuditRecord
deriving DecidableEq

/-- The state of a freshly started service: every collection and map empty. -/
def emptyState : IPSState :=
  { blocklist := [], users := [], cacheIPs := [], cacheUsers := [],
    rateLimits := [], suspicious := [], audit := [] }

/-- Lookup in an association list keyed by strings. -/
def lookupK {α : Type} (l : List (String × α)) (k : String) : Option α :=
  (l.find? (fun p => decide (p.1 = k))).map (fun p => p.2)

/-- Update of an association list: the new binding shadows any old one. -/
def setK {α : Type} (l : List (String × α)) (k : String) (v : α) :
    List (String × α) :=
  (k, v) :: l.filter (fun p => decide (p.1 ≠ k))

/-- Removal of a key from an association list. -/
def eraseK {α : Type} (l : List (String × α)) (k : String) :
    List (String × α) :=
  l.filter (fun p => decide (p.1 ≠ k))

/-- The loopback test used at the top of isIPBlocked and blockIP:
the ip literal is the IPv6 or IPv4 localhost address. -/
def isLocalhost (ip : String) : Bool :=
  decide (ip = "::1") || decide (ip = "127.0.0.1")

/-- The predicate of the durable read issued by isIPBlocked: an entry for
this ip that is active and whose expiresAt is strictly in the future. -/
def auPred (ip : String) (now : Nat) (e : BlockEntry) : Bool :=
  decide (e.ip = ip) && e.active && decide (now < e.expiresAt)

/-- The durable query of isIPBlocked: first active, unexpired entry for the
ip (limit 1 on the Firestore query). -/
def findActiveUnexpired (bl : List BlockEntry) (ip : String) (now : Nat) :
    Option BlockEntry :=
  bl.find? (auPred ip now)

/-- Modelled from the spec: src/services/ipsStore.js is absent from src.
The cache hit test of the Local Cache (spec section 3, CacheEntry): a key is
reported blocked while an entry is present and its expiry is in the future,
matching the inlined variant in src/unnamed/part_008 lines 43 and 72. -/
def cacheSaysBlocked (cache : List (String × Nat)) (k : String) (now : Nat) :
    Bool :=
  match lookupK cache k with
  | some t => decide (now < t)
  | none => false

/-- The durable-store failure raised by a Firestore call. -/
inductive StoreErr where
  | unavailable
deriving DecidableEq

/-- The body of the try block of IPSService.isIPBlocked, with the outcome of
the durable read made explicit: when readFails is true the store read
throws.  Returns the answer and the state (the cache is populated on a
positive durable result). -/
def isIPBlockedEx (s : IPSState) (ip : String) (now : Nat)
    (readFails : Bool) : Except StoreErr (Bool × IPSState) :=
  if isLocalhost ip then Except.ok (false, s)
  else if cacheSaysBlocked s.cacheIPs ip now then Except.ok (true, s)
  else if readFails then Except.error StoreErr.unavailable
  else
    match findActiveUnexpired s.blocklist ip now with
    | some e =>
        Except.ok (true, { s with cacheIPs := setK s.cacheIPs ip e.expiresAt })
    | none => Except.ok (false, s)

/-- IPSService.isIPBlocked: the try body wrapped in the catch that logs the
error and returns false (the documented fail-open policy). -/
def isIPBlockedCatch (s : IPSState) (ip : String) (now : Nat)
    (readFails : Bool) : Bool × IPSState :=
  match isIPBlockedEx s ip now readFails with
  | Except.error _ => (false, s)
  | Except.ok r => r

/-- IPSService.isIPBlocked on the path where the durable read succeeds. -/
def isIPBlocked (s : IPSState) (ip : String) (now : Nat) : Bool × IPSState :=
  isIPBlockedCatch s ip now false

/-- IPSService.unblockIP: deactivate every active blocklist entry for the
ip (batch update), drop the cache entry, return true. -/
def unblockIP (s : IPSState) (ip : String) : Bool × IPSState :=
  (true,
   { s with
     blocklist := s.blocklist.map (fun e =>
       if decide (e.ip = ip) && e.active then { e with active := false } else e),
     cacheIPs := eraseK s.cacheIPs ip })

/-- IPSService.unblockUser: if the user document is missing return false;
otherwise clear blocked, blockReason and blockUntil, drop the user cache
entry, and if the document carries an ip, look for active blocklist entries
whose reason is exactly the string "User " ++ uid ++ " blocked" and, when
one exists, unblock that ip. -/
def unblockUser (s : IPSState) (uid : String) : Bool × IPSState :=
  match lookupK s.users uid with
  | none => (false, s)
  | some u =>
    let s1 : IPSState :=
      { s with
        users := setK s.users uid
          { u with blocked := false, blockReason := none, blockUntil := none },
        cacheUsers := eraseK s.cacheUsers uid }
    match u.ip with
    | none => (true, s1)
    | some uip =>
      let hits := s1.blocklist.filter (fun e =>
        decide (e.ip = uip) && decide (e.reason = "User " ++ uid ++ " blocked")
          && e.active)
      if hits.isEmpty then (true, s1) else (true, (unblockIP s1 uip).2)

/-- The body of the try block of IPSService.isUserBlocked with the outcome
of the durable read made explicit.  A blocked user whose blockUntil has
passed is auto-unblocked (a durable write) before false is returned. -/
def isUserBlockedEx (s : IPSState) (uid : String) (now : Nat)
    (readFails : Bool) : Except StoreErr (Bool × IPSState) :=
  if cacheSaysBlocked s.cacheUsers uid now then Except.ok (true, s)
  else if readFails then Except.error StoreErr.unavailable
  else
    match lookupK s.users uid with
    | none => Except.ok (false, s)
    | some u =>
      if u.blocked then
        match u.blockUntil with
        | some t =>
          if now < t then
            Except.ok (true, { s with cacheUsers := setK s.cacheUsers uid t })
          else Except.ok (false, (unblockUser s uid).2)
        | none => Except.ok (false, s)
      else Except.ok (false, s)

/-- IPSService.isUserBlocked: the try body wrapped in the catch that returns
false on a store failure. -/
def isUserBlockedCatch (s : IPSState) (uid : String) (now : Nat)
    (readFails : Bool) : Bool × IPSState :=
  match isUserBlockedEx s uid now readFails with
  | Except.error _ => (false, s)
  | Except.ok r => r

/-- IPSService.isUserBlocked on the path where the durable read succeeds. -/
def isUserBlocked (s : IPSState) (uid : String) (now : Nat) :
    Bool × IPSState :=
  isUserBlockedCatch s uid now false

/-- IPSService.blockIP: refuse localhost (returning false), return false if
already blocked, otherwise append an active entry expiring at now plus the
duration to the blocklist and write the cache through. -/
def blockIP (s : IPSState) (ip reason : String) (duration now : Nat) :
    Bool × IPSState :=
  if isLocalhost ip then (false, s)
  else
    let r0 := isIPBlocked s ip now
    if r0.1 then (false, r0.2)
    else
      (true,
       { r0.2 with
         blocklist := r0.2.blocklist ++
           [{ ip := ip, reason := reason, createdAt := now,
              expiresAt := now + duration, active := true }],
         cacheIPs := setK r0.2.cacheIPs ip (now + duration) })

/-- IPSService.blockUser: return false if the user is already blocked;
a Firestore update on a missing users_ips document throws, surfaced here as
a store error; otherwise set the block fields, write the user cache through,
and cascade to the user's ip (when present) with the derived reason
"User " ++ uid ++ " blocked: " ++ reason. -/
def blockUser (s : IPSState) (uid reason : String) (duration now : Nat) :
    Except StoreErr Bool × IPSState :=
  let r0 := isUserBlocked s uid now
  if r0.1 then (Except.ok false, r0.2)
  else
    match lookupK r0.2.users uid with
    | none => (Except.error StoreErr.unavailable, r0.2)
    | some u =>
      let s2 : IPSState :=
        { r0.2 with
          users := setK r0.2.users uid
            { u with blocked := true, blockReason := some reason,
                     blockUntil := some (now + duration) },
          cacheUsers := setK r0.2.cacheUsers uid (now + duration) }
      match u.ip with
      | none => (Except.ok true, s2)
      | some uip =>
        (Except.ok true,
         (blockIP s2 uip ("User " ++ uid ++ " blocked: " ++ reason)
           duration now).2)

/-- Modelled from the spec: the default block duration lives in the absent
config/ipConfig.js (spec section 6 configuration surface); every inlined
variant in src/unnamed/part_006 through part_009 fixes 3600000 ms. -/
def blockDuration : Nat := 3600000

/-- Modelled from the spec: the suspicious-activity threshold lives in the
absent config/ipConfig.js; the spec (section 4.3) gives the policy default
5, and src/unnamed/part_008 line 341 inlines 5. -/
def suspiciousThreshold : Nat := 5

/-- IPSService.checkRateLimit: reset the window when more than timeWindow ms
have passed since firstRequest, increment the count, and on exceeding the
threshold block the ip with reason "Rate limit exceeded" and deny. -/
def checkRateLimit (s : IPSState) (ip : String)
    (threshold timeWindow now : Nat) : Bool × IPSState :=
  let d0 := (lookupK s.rateLimits ip).getD { count := 0, firstRequest := now }
  let d1 := if timeWindow < now - d0.firstRequest then
      ({ count := 0, firstRequest := now } : RateData)
    else d0
  let d2 : RateData := { count := d1.count + 1, firstRequest := d1.firstRequest }
  let s1 : IPSState := { s with rateLimits := setK s.rateLimits ip d2 }
  if threshold < d2.count then
    (false, (blockIP s1 ip "Rate limit exceeded" blockDuration now).2)
  else (true, s1)

/-- IPSService.analyzeTraffic.  The signature test
detectSuspiciousActivity(requestData) evaluates the configured pattern set
(held in the absent config/ipConfig.js) against the serialized request; its
Boolean verdict is passed in as the suspicious argument.  A blocked subject
is denied without scoring; a suspicious request increments the counter
(ipsStore.recordSuspiciousActivity, modelled from the spec as the
incremented running count, matching src/unnamed/part_008 line 338), blocks
at the threshold with reason "Multiple suspicious activities detected", and
otherwise persists an audit record and is denied; a clean request is
admitted. -/
def analyzeTraffic (s : IPSState) (ip : String) (suspicious : Bool)
    (now : Nat) : Bool × IPSState :=
  let r0 := isIPBlocked s ip now
  if r0.1 then (false, r0.2)
  else if suspicious then
    let cnt := (lookupK r0.2.suspicious ip).getD 0 + 1
    let s2 : IPSState := { r0.2 with suspicious := setK r0.2.suspicious ip cnt }
    if suspiciousThreshold ≤ cnt then
      (false,
       (blockIP s2 ip "Multiple suspicious activities detected"
         blockDuration now).2)
    else
      (false, { s2 with audit := s2.audit ++ [{ ip := ip, timestamp := now }] })
  else (true, r0.2)

/-- An ips_blocklist entry matched by the cleanup query: active with
expiresAt at or before now. -/
def expiredActive (now : Nat) (e : BlockEntry) : Bool :=
  e.active && decide (e.expiresAt ≤ now)

/-- A users_ips document matched by the cleanup query: blocked with a
blockUntil at or before now. -/
def expiredBlockedUser (now : Nat) (u : UserRecord) : Bool :=
  u.blocked && (match u.blockUntil with
    | some t => decide (t ≤ now)
    | none => false)

/-- IPSService.cleanupExpiredBlocks: batch-deactivate the active blocklist
entries whose expiresAt has passed, clear the block fields of blocked users
whose blockUntil has passed, and evict expired Local Cache entries
(ipsStore.cleanupExpiredMemoryStores, modelled from the spec section 4.5 as
eviction of cache entries with expiry at or before now, returning the
number evicted, matching src/unnamed/part_008 lines 460 to 474).  Returns
the total number cleaned. -/
def cleanupExpiredBlocks (s : IPSState) (now : Nat) : Nat × IPSState :=
  let nIP := s.blocklist.countP (expiredActive now)
  let nUser := s.users.countP (fun p => expiredBlockedUser now p.2)
  let nMem := s.cacheIPs.countP (fun p => decide (p.2 ≤ now)) +
    s.cacheUsers.countP (fun p => decide (p.2 ≤ now))
  (nIP + nUser + nMem,
   { s with
     blocklist := s.blocklist.map (fun e =>
       if expiredActive now e then { e with active := false } else e),
     users := s.users.map (fun p =>
       if expiredBlockedUser now p.2 then
         (p.1, { p.2 with blocked := false, blockReason := none,
                          blockUntil := none })
       else p),
     cacheIPs := s.cacheIPs.filter (fun p => decide (now < p.2)),
     cacheUsers := s.cacheUsers.filter (fun p => decide (now < p.2)) })

/-- The block-registry operations a client can drive the durable store
through (blockSubject, unblockSubject and the cleanup sweep, for both
subject kinds). -/
inductive Op where
  | opBlockIP (ip reason : String) (duration : Nat)
  | opUnblockIP (ip : String)
  | opBlockUser (uid reason : String) (duration : Nat)
  | opUnblockUser (uid : String)
  | opCleanup
deriving DecidableEq

/-- One operation applied to the state at a given time. -/
def step (s : IPSState) (op : Op) (now : Nat) : IPSState :=
  match op with
  | Op.opBlockIP ip reason d => (blockIP s ip reason d now).2
  | Op.opUnblockIP ip => (unblockIP s ip).2
  | Op.opBlockUser uid reason d => (blockUser s uid reason d now).2
  | Op.opUnblockUser uid => (unblockUser s uid).2
  | Op.opCleanup => (cleanupExpiredBlocks s now).2

/-- A timed sequence of operations run from a state. -/
def runTrace (s : IPSState) : List (Op × Nat) → IPSState
  | [] => s
  | (op, t) :: rest => runTrace (step s op t) rest

/-- The timestamps of a trace are nondecreasing and start no earlier
than t. -/
def timesMono (t : Nat) : List (Op × Nat) → Bool
  | [] => true
  | (_, t') :: rest => decide (t ≤ t') && timesMono t' rest

/-- The time of the last operation of a trace (t for the empty trace). -/
def endTime (t : Nat) : List (Op × Nat) → Nat
  | [] => t
  | (_, t') :: rest => endTime t' rest

/-- Number of blocklist entries for an ip with active set, expired or not. -/
def activeCount (s : IPSState) (ip : String) : Nat :=
  s.blocklist.countP (fun e => decide (e.ip = ip) && e.active)

/-- Number of blocklist entries for an ip that are active and unexpired at
the given time. -/
def activeUnexpiredCount (s : IPSState) (ip : String) (now : Nat) : Nat :=
  s.blocklist.countP (auPred ip now)

/-- Number of blocklist entries for an ip, of any status. -/
def entryCount (s : IPSState) (ip : String) : Nat :=
  s.blocklist.countP (fun e => decide (e.ip = ip))

/-- At most one active, unexpired blocklist entry per ip at time now. -/
def AtMostOneActive (s : IPSState) (now : Nat) : Prop :=
  ∀ ip, activeUnexpiredCount s ip now ≤ 1

/-- The one situation in which isUserBlocked writes to the durable store:
the user cache does not report the uid blocked, and the users_ips document
is blocked with a blockUntil that has passed (the auto-unblock branch). -/
def ExpiredAccountBlock (s : IPSState) (uid : String) (now : Nat) : Prop :=
  cacheSaysBlocked s.cacheUsers uid now = false ∧
  ∃ u, lookupK s.users uid = some u ∧ u.blocked = true ∧
    ∃ t, u.blockUntil = some t ∧ t ≤ now

/-- A sequence of rate-limited requests from one ip at the given times:
each element of the result is the admission verdict of one call to
checkRateLimit. -/
def rateSeq (s : IPSState) (ip : String) (threshold timeWindow : Nat) :
    List Nat → List Bool × IPSState
  | [] => ([], s)
  | t :: ts =>
    let r := checkRateLimit s ip threshold timeWindow t
    let rest := rateSeq r.2 ip threshold timeWindow ts
    (r.1 :: rest.1, rest.2)

/-- A sequence of inspected requests from one ip: each element carries the
verdict of detectSuspiciousActivity for that request and its time, and the
result lists the admission verdicts of the analyzeTraffic calls. -/
def inspectSeq (s : IPSState) (ip : String) :
    List (Bool × Nat) → List Bool × IPSState
  | [] => ([], s)
  | (sus, t) :: rest =>
    let r := analyzeTraffic s ip sus t
    let more := inspectSeq r.2 ip rest
    (r.1 :: more.1, more.2)

/-- A state holding one active block for 5.5.5.5 that expires at time 100,
with an empty cache. -/
def sAlready : IPSState :=
  { emptyState with
    blocklist := [{ ip := "5.5.5.5", reason := "abuse", createdAt := 0,
                    expiresAt := 100, active := true }] }

/-- A state holding one user document, u1, blocked with blockUntil 5 (an
expired account block) and no last-known ip. -/
def sExpiredUser : IPSState :=
  { emptyState with
    users := [("u1",
      { ip := none, blocked := true, blockReason := some "abuse",
        blockUntil := some 5 })] }

/-- A state holding one unblocked user document, u1, whose last-known ip is
203.0.113.5. -/
def sCascade : IPSState :=
  { emptyState with
    users := [("u1",
      { ip := some "203.0.113.5", blocked := false, blockReason := none,
        blockUntil := none })] }

end IPSec

namespace IPSec

theorem lookupK_setK_self {α : Type} (l : List (String × α)) (k : String)
    (v : α) : lookupK (setK l k v) k = some v := by
  unfold lookupK setK
  rw [List.find?_cons_of_pos _ (by simp)]
  rfl

theorem setK_setK {α : Type} (l : List (String × α)) (k : String) (v w : α) :
    setK (setK l k v) k w = setK l k w := by
  unfold setK
  simp [List.filter_filter]

theorem cacheSaysBlocked_setK_self (c : List (String × Nat)) (k : String)
    (v now : Nat) : cacheSaysBlocked (setK c k v) k now = decide (now < v) := by
  simp [cacheSaysBlocked, lookupK_setK_self]

theorem countP_map_le {α : Type} (l : List α) (f : α → α) (p : α → Bool)
    (h : ∀ a, p (f a) = true → p a = true) :
    (l.map f).countP p ≤ l.countP p := by
  induction l with
  | nil => simp
  | cons a l ih =>
    simp only [List.map_cons, List.countP_cons]
    by_cases hp : p (f a) = true
    · have hpa := h a hp
      rw [hp, hpa]
      omega
    · have hp' : p (f a) = false := by simpa using hp
      rw [hp', if_neg (by simp)]
      by_cases hq : p a = true
      · rw [hq, if_pos rfl]
        omega
      · have hq' : p a = false := by simpa using hq
        rw [hq', if_neg (by simp)]
        omega

/-- Full case analysis of isIPBlockedCatch: localhost short-circuit, cache
hit, failed durable read, durable hit (cache populated) or miss. -/
theorem isIPBlockedCatch_spec (s : IPSState) (ip : String) (now : Nat)
    (fl : Bool) :
    (isLocalhost ip = true ∧ isIPBlockedCatch s ip now fl = (false, s)) ∨
    (isLocalhost ip = false ∧ cacheSaysBlocked s.cacheIPs ip now = true ∧
      isIPBlockedCatch s ip now fl = (true, s)) ∨
    (isLocalhost ip = false ∧ cacheSaysBlocked s.cacheIPs ip now = false ∧
      fl = true ∧ isIPBlockedCatch s ip now fl = (false, s)) ∨
    (isLocalhost ip = false ∧ cacheSaysBlocked s.cacheIPs ip now = false ∧
      fl = false ∧
      ((∃ e, findActiveUnexpired s.blocklist ip now = some e ∧
          isIPBlockedCatch s ip now fl =
            (true, { s with cacheIPs := setK s.cacheIPs ip e.expiresAt })) ∨
        (findActiveUnexpired s.blocklist ip now = none ∧
          isIPBlockedCatch s ip now fl = (false, s)))) := by
  by_cases hl : isLocalhost ip = true
  · exact Or.inl ⟨hl, by simp [isIPBlockedCatch, isIPBlockedEx, hl]⟩
  · have hl' : isLocalhost ip = false := by simpa using hl
    by_cases hc : cacheSaysBlocked s.cacheIPs ip now = true
    · exact Or.inr (Or.inl ⟨hl', hc,
        by simp [isIPBlockedCatch, isIPBlockedEx, hl', hc]⟩)
    · have hc' : cacheSaysBlocked s.cacheIPs ip now = false := by simpa using hc
      by_cases hf : fl = true
      · exact Or.inr (Or.inr (Or.inl ⟨hl', hc', hf,
          by simp [isIPBlockedCatch, isIPBlockedEx, hl', hc', hf]⟩))
      · have hf' : fl = false := by simpa using hf
        rcases hq : findActiveUnexpired s.blocklist ip now with _ | e
        · exact Or.inr (Or.inr (Or.inr ⟨hl', hc', hf', Or.inr ⟨rfl,
            by simp [isIPBlockedCatch, isIPBlockedEx, hl', hc', hf', hq]⟩⟩))
        · exact Or.inr (Or.inr (Or.inr ⟨hl', hc', hf', Or.inl ⟨e, rfl,
            by simp [isIPBlockedCatch, isIPBlockedEx, hl', hc', hf', hq]⟩⟩))

theorem isIPBlockedCatch_snd (s : IPSState) (ip : String) (now : Nat)
    (fl : Bool) :
    ∃ c, (isIPBlockedCatch s ip now fl).2 = { s with cacheIPs := c } := by
  rcases isIPBlockedCatch_spec s ip now fl with ⟨_, h⟩ | ⟨_, _, h⟩ |
    ⟨_, _, _, h⟩ | ⟨_, _, _, ⟨e, _, h⟩ | ⟨_, h⟩⟩ <;> rw [h]
  · exact ⟨s.cacheIPs, rfl⟩
  · exact ⟨s.cacheIPs, rfl⟩
  · exact ⟨s.cacheIPs, rfl⟩
  · exact ⟨_, rfl⟩
  · exact ⟨s.cacheIPs, rfl⟩

theorem isIPBlockedCatch_blocklist (s : IPSState) (ip : String) (now : Nat)
    (fl : Bool) :
    (isIPBlockedCatch s ip now fl).2.blocklist = s.blocklist := by
  obtain ⟨c, hc⟩ := isIPBlockedCatch_snd s ip now fl
  rw [hc]

theorem isIPBlockedCatch_users (s : IPSState) (ip : String) (now : Nat)
    (fl : Bool) : (isIPBlockedCatch s ip now fl).2.users = s.users := by
  obtain ⟨c, hc⟩ := isIPBlockedCatch_snd s ip now fl
  rw [hc]

theorem isIPBlockedCatch_false_snd (s : IPSState) (ip : String) (now : Nat)
    (fl : Bool) (h : (isIPBlockedCatch s ip now fl).1 = false) :
    (isIPBlockedCatch s ip now fl).2 = s := by
  rcases isIPBlockedCatch_spec s ip now fl with ⟨_, he⟩ | ⟨_, _, he⟩ |
    ⟨_, _, _, he⟩ | ⟨_, _, _, ⟨e, _, he⟩ | ⟨_, he⟩⟩ <;>
    (rw [he] at h ⊢) <;> simp_all

theorem isIPBlocked_false_count (s : IPSState) (ip : String) (now : Nat)
    (hl : isLocalhost ip = false) (h : (isIPBlocked s ip now).1 = false) :
    activeUnexpiredCount s ip now = 0 := by
  unfold isIPBlocked at h
  rcases isIPBlockedCatch_spec s ip now false with ⟨hll, _⟩ | ⟨_, _, he⟩ |
    ⟨_, _, hff, _⟩ | ⟨_, _, _, ⟨e, _, he⟩ | ⟨hq, _⟩⟩
  · rw [hll] at hl; exact absurd hl (by simp)
  · rw [he] at h; simp at h
  · simp at hff
  · rw [he] at h; simp at h
  · unfold activeUnexpiredCount
    refine List.countP_eq_zero.mpr ?_
    intro e he'
    have := List.find?_eq_none.mp hq e he'
    simpa using this

/-- Full case analysis of isUserBlockedCatch: cache hit, failed durable
read, missing document, not blocked, blocked with no blockUntil, blocked
and unexpired (cache populated), or blocked and expired (auto-unblock). -/
theorem isUserBlockedCatch_spec (s : IPSState) (uid : String) (now : Nat)
    (fl : Bool) :
    (cacheSaysBlocked s.cacheUsers uid now = true ∧
      isUserBlockedCatch s uid now fl = (true, s)) ∨
    (cacheSaysBlocked s.cacheUsers uid now = false ∧ fl = true ∧
      isUserBlockedCatch s uid now fl = (false, s)) ∨
    (cacheSaysBlocked s.cacheUsers uid now = false ∧ fl = false ∧
      ((lookupK s.users uid = none ∧
          isUserBlockedCatch s uid now fl = (false, s)) ∨
        (∃ u, lookupK s.users uid = some u ∧
          ((u.blocked = false ∧ isUserBlockedCatch s uid now fl = (false, s)) ∨
            (u.blocked = true ∧ u.blockUntil = none ∧
              isUserBlockedCatch s uid now fl = (false, s)) ∨
            (∃ t, u.blocked = true ∧ u.blockUntil = some t ∧ now < t ∧
              isUserBlockedCatch s uid now fl =
                (true, { s with cacheUsers := setK s.cacheUsers uid t })) ∨
            (∃ t, u.blocked = true ∧ u.blockUntil = some t ∧ t ≤ now ∧
              isUserBlockedCatch s uid now fl =
                (false, (unblockUser s uid).2)))))) := by
  by_cases hc : cacheSaysBlocked s.cacheUsers uid now = true
  · exact Or.inl ⟨hc, by simp [isUserBlockedCatch, isUserBlockedEx, hc]⟩
  · have hc' : cacheSaysBlocked s.cacheUsers uid now = false := by simpa using hc
    by_cases hf : fl = true
    · exact Or.inr (Or.inl ⟨hc', hf,
        by simp [isUserBlockedCatch, isUserBlockedEx, hc', hf]⟩)
    · have hf' : fl = false := by simpa using hf
      rcases hu : lookupK s.users uid with _ | u
      · exact Or.inr (Or.inr ⟨hc', hf', Or.inl ⟨rfl,
          by simp [isUserBlockedCatch, isUserBlockedEx, hc', hf', hu]⟩⟩)
      · by_cases hb : u.blocked = true
        · rcases ht : u.blockUntil with _ | t
          · exact Or.inr (Or.inr ⟨hc', hf', Or.inr ⟨u, rfl, Or.inr (Or.inl
              ⟨hb, ht, by
                simp [isUserBlockedCatch, isUserBlockedEx, hc', hf', hu, hb, ht]⟩)⟩⟩)
          · by_cases hn : now < t
            · exact Or.inr (Or.inr ⟨hc', hf', Or.inr ⟨u, rfl, Or.inr (Or.inr
                (Or.inl ⟨t, hb, ht, hn, by
                  simp [isUserBlockedCatch, isUserBlockedEx, hc', hf', hu, hb,
                    ht, hn]⟩))⟩⟩)
            · have hn' : t ≤ now := Nat.le_of_not_lt hn
              exact Or.inr (Or.inr ⟨hc', hf', Or.inr ⟨u, rfl, Or.inr (Or.inr
                (Or.inr ⟨t, hb, ht, hn', by
                  simp [isUserBlockedCatch, isUserBlockedEx, hc', hf', hu, hb,
                    ht, hn]⟩))⟩⟩)
        · have hb' : u.blocked = false := by simpa using hb
          exact Or.inr (Or.inr ⟨hc', hf', Or.inr ⟨u, rfl, Or.inl ⟨hb',
            by simp [isUserBlockedCatch, isUserBlockedEx, hc', hf', hu, hb']⟩⟩⟩)

theorem unblockIP_count_le (s : IPSState) (ip ipq : String) (t : Nat) :
    activeUnexpiredCount (unblockIP s ip).2 ipq t ≤
      activeUnexpiredCount s ipq t := by
  unfold unblockIP activeUnexpiredCount
  refine countP_map_le _ _ _ ?_
  intro a ha
  by_cases hcond : (decide (a.ip = ip) && a.active) = true
  · rw [if_pos hcond] at ha
    simp [auPred] at ha
  · rw [if_neg hcond] at ha
    exact ha

theorem unblockUser_count_le (s : IPSState) (uid ipq : String) (t : Nat) :
    activeUnexpiredCount (unblockUser s uid).2 ipq t ≤
      activeUnexpiredCount s ipq t := by
  unfold unblockUser
  rcases hu : lookupK s.users uid with _ | u
  · exact le_refl _
  · dsimp only
    rcases hip : u.ip with _ | uip
    · simp [activeUnexpiredCount]
    · dsimp only
      by_cases hemp : (s.blocklist.filter (fun e =>
          decide (e.ip = uip) && decide (e.reason = "User " ++ uid ++ " blocked")
            && e.active)).isEmpty = true
      · rw [if_pos hemp]
        simp [activeUnexpiredCount]
      · rw [if_neg hemp]
        exact le_trans (unblockIP_count_le _ uip ipq t)
          (le_of_eq (by simp [activeUnexpiredCount]))

theorem isUserBlockedCatch_count_le (s : IPSState) (uid ipq : String)
    (now t : Nat) (fl : Bool) :
    activeUnexpiredCount (isUserBlockedCatch s uid now fl).2 ipq t ≤
      activeUnexpiredCount s ipq t := by
  rcases isUserBlockedCatch_spec s uid now fl with ⟨_, he⟩ | ⟨_, _, he⟩ |
    ⟨_, _, ⟨_, he⟩ | ⟨u, _, ⟨_, he⟩ | ⟨_, _, he⟩ | ⟨tt, _, _, _, he⟩ |
      ⟨tt, _, _, _, he⟩⟩⟩ <;> rw [he] <;>
    first
      | exact unblockUser_count_le s uid ipq t
      | exact le_of_eq (by simp [activeUnexpiredCount])

theorem blockIP_when_blocked (s : IPSState) (ip r : String) (d now : Nat)
    (hl : isLocalhost ip = false) (h : (isIPBlocked s ip now).1 = true) :
    blockIP s ip r d now = (false, (isIPBlocked s ip now).2) := by
  unfold blockIP
  rw [if_neg (by simp [hl])]
  dsimp only
  rw [h, if_pos rfl]

theorem blockIP_not_blocked (s : IPSState) (ip r : String) (d now : Nat)
    (hl : isLocalhost ip = false) (h : (isIPBlocked s ip now).1 = false) :
    blockIP s ip r d now =
      (true,
       { s with
         blocklist := s.blocklist ++
           [{ ip := ip, reason := r, createdAt := now, expiresAt := now + d,
              active := true }],
         cacheIPs := setK s.cacheIPs ip (now + d) }) := by
  have hsnd : (isIPBlocked s ip now).2 = s :=
    isIPBlockedCatch_false_snd s ip now false h
  unfold blockIP
  rw [if_neg (by simp [hl])]
  dsimp only
  rw [h, if_neg (by simp), hsnd]

theorem isIPBlocked_cacheHit (s : IPSState) (ip : String) (now : Nat)
    (hl : isLocalhost ip = false)
    (hc : cacheSaysBlocked s.cacheIPs ip now = true) :
    isIPBlocked s ip now = (true, s) := by
  rcases isIPBlockedCatch_spec s ip now false with ⟨h1, _⟩ | ⟨_, _, he⟩ |
    ⟨_, _, hff, _⟩ | ⟨_, hc2, _, _⟩
  · rw [hl] at h1
    cases h1
  · exact he
  · cases hff
  · rw [hc] at hc2
    cases hc2

theorem blockIP_inv (s : IPSState) (ip r : String) (d now : Nat)
    (h : AtMostOneActive s now) :
    AtMostOneActive (blockIP s ip r d now).2 now := by
  by_cases hl : isLocalhost ip = true
  · unfold blockIP
    rw [if_pos hl]
    exact h
  · have hl' : isLocalhost ip = false := by simpa using hl
    by_cases hb : (isIPBlocked s ip now).1 = true
    · rw [blockIP_when_blocked s ip r d now hl' hb]
      intro ipq
      have hbl := isIPBlockedCatch_blocklist s ip now false
      unfold activeUnexpiredCount
      rw [show (isIPBlocked s ip now).2.blocklist = s.blocklist from hbl]
      exact h ipq
    · have hb' : (isIPBlocked s ip now).1 = false := by simpa using hb
      rw [blockIP_not_blocked s ip r d now hl' hb']
      intro ipq
      unfold activeUnexpiredCount
      dsimp only
      rw [List.countP_append]
      by_cases hq : ipq = ip
      · subst hq
        have h0 := isIPBlocked_false_count s ipq now hl' hb'
        unfold activeUnexpiredCount at h0
        rw [h0]
        cases hpe : auPred ipq now
          { ip := ipq, reason := r, createdAt := now, expiresAt := now + d,
            active := true } <;>
          simp [List.countP_cons, hpe]
      · have hd : decide (ip = ipq) = false :=
          decide_eq_false (fun hh => hq hh.symm)
        have hpe : auPred ipq now
            { ip := ip, reason := r, createdAt := now, expiresAt := now + d,
              active := true } = false := by
          unfold auPred
          simp [hd]
        rw [show List.countP (auPred ipq now)
            [{ ip := ip, reason := r, createdAt := now, expiresAt := now + d,
               active := true }] = 0 from by simp [List.countP_cons, hpe]]
        have := h ipq
        unfold activeUnexpiredCount at this
        omega

theorem blockUser_inv (s : IPSState) (uid r : String) (d now : Nat)
    (h : AtMostOneActive s now) :
    AtMostOneActive (blockUser s uid r d now).2 now := by
  have hinv2 : AtMostOneActive (isUserBlocked s uid now).2 now := fun ipq =>
    le_trans (isUserBlockedCatch_count_le s uid ipq now now false) (h ipq)
  unfold blockUser
  dsimp only
  by_cases hb : (isUserBlocked s uid now).1 = true
  · rw [hb, if_pos rfl]
    exact hinv2
  · have hb' : (isUserBlocked s uid now).1 = false := by simpa using hb
    rw [hb', if_neg (by simp)]
    rcases hu : lookupK (isUserBlocked s uid now).2.users uid with _ | u
    · exact hinv2
    · dsimp only
      rcases hip : u.ip with _ | uip
      · intro ipq
        exact le_trans (le_of_eq (by simp [activeUnexpiredCount])) (hinv2 ipq)
      · have hs2 : AtMostOneActive
            { (isUserBlocked s uid now).2 with
              users := setK (isUserBlocked s uid now).2.users uid
                { u with blocked := true, blockReason := some r,
                         blockUntil := some (now + d) },
              cacheUsers := setK (isUserBlocked s uid now).2.cacheUsers uid
                (now + d) } now := fun ipq => hinv2 ipq
        exact blockIP_inv _ uip ("User " ++ uid ++ " blocked: " ++ r) d now hs2

theorem cleanup_count_le (s : IPSState) (now t : Nat) (ipq : String) :
    activeUnexpiredCount (cleanupExpiredBlocks s now).2 ipq t ≤
      activeUnexpiredCount s ipq t := by
  unfold cleanupExpiredBlocks activeUnexpiredCount
  dsimp only
  refine countP_map_le _ _ _ ?_
  intro a ha
  by_cases hcond : expiredActive now a = true
  · rw [if_pos hcond] at ha
    simp [auPred] at ha
  · rw [if_neg hcond] at ha
    exact ha

theorem step_inv (s : IPSState) (op : Op) (now : Nat)
    (h : AtMostOneActive s now) : AtMostOneActive (step s op now) now := by
  cases op with
  | opBlockIP ip r d => exact blockIP_inv s ip r d now h
  | opUnblockIP ip =>
    exact fun ipq => le_trans (unblockIP_count_le s ip ipq now) (h ipq)
  | opBlockUser uid r d => exact blockUser_inv s uid r d now h
  | opUnblockUser uid =>
    exact fun ipq => le_trans (unblockUser_count_le s uid ipq now) (h ipq)
  | opCleanup =>
    exact fun ipq => le_trans (cleanup_count_le s now now ipq) (h ipq)

theorem count_mono_time (s : IPSState) (ipq : String) {t t' : Nat}
    (h : t ≤ t') :
    activeUnexpiredCount s ipq t' ≤ activeUnexpiredCount s ipq t := by
  unfold activeUnexpiredCount
  refine List.countP_mono_left ?_
  intro e _ hp
  unfold auPred at hp ⊢
  simp only [Bool.and_eq_true, decide_eq_true_eq] at hp ⊢
  exact ⟨⟨hp.1.1, hp.1.2⟩, lt_of_le_of_lt h hp.2⟩

theorem atMostOne_mono (s : IPSState) {t t' : Nat} (h : AtMostOneActive s t)
    (htt : t ≤ t') : AtMostOneActive s t' := fun ipq =>
  le_trans (count_mono_time s ipq htt) (h ipq)

theorem runTrace_inv (tr : List (Op × Nat)) :
    ∀ (s : IPSState) (t : Nat), AtMostOneActive s t → timesMono t tr = true →
      AtMostOneActive (runTrace s tr) (endTime t tr) := by
  induction tr with
  | nil => exact fun s t h _ => h
  | cons p rest ih =>
    intro s t h hm
    obtain ⟨op, t'⟩ := p
    unfold timesMono at hm
    rw [Bool.and_eq_true] at hm
    obtain ⟨h1, h2⟩ := hm
    have h1' : t ≤ t' := of_decide_eq_true h1
    unfold runTrace endTime
    exact ih (step s op t') t'
      (step_inv s op t' (atMostOne_mono s h h1')) h2

/-- C1 (amended): along any monotonically timed sequence of
blockSubject/unblockSubject/cleanup operations started from the empty
state, at most one blocklist entry per subject is simultaneously active
and unexpired at any observation time at or after the last operation.  The
original claim — at most one entry with active set, even when an earlier
active entry has passed its expiresAt — fails on the code: blockIP only
checks for an active, unexpired entry, so re-blocking after expiry leaves
two entries with active set (see the counterexample). -/
theorem c1_at_most_one_active_unexpired (tr : List (Op × Nat)) (tObs : Nat)
    (hm : timesMono 0 tr = true) (hobs : endTime 0 tr ≤ tObs) (ip : String) :
    activeUnexpiredCount (runTrace emptyState tr) ip tObs ≤ 1 := by
  have h0 : AtMostOneActive emptyState 0 := fun ipq => by
    simp [activeUnexpiredCount, emptyState]
  exact atMostOne_mono _ (runTrace_inv tr emptyState 0 h0 hm) hobs ip

theorem c1_at_most_one_witness :
    activeUnexpiredCount (runTrace emptyState
      [(Op.opBlockIP "2.2.2.2" "abuse" 5, 1), (Op.opCleanup, 7),
        (Op.opBlockIP "2.2.2.2" "abuse" 5, 8)]) "2.2.2.2" 9 ≤ 1 :=
  c1_at_most_one_active_unexpired
    [(Op.opBlockIP "2.2.2.2" "abuse" 5, 1), (Op.opCleanup, 7),
      (Op.opBlockIP "2.2.2.2" "abuse" 5, 8)] 9 (by decide) (by decide)
    "2.2.2.2"

/-- C1 counterexample: blockSubject of 1.2.3.4 for 10 ms at time 0 and
again at time 20 — after the first entry has passed its expiresAt but
before any cleanup — leaves two blocklist entries with active set for
1.2.3.4, so more than one BlockEntry with active true exists. -/
theorem c1_counterexample_two_active :
    activeCount (runTrace emptyState
      [(Op.opBlockIP "1.2.3.4" "abuse" 10, 0),
        (Op.opBlockIP "1.2.3.4" "abuse" 10, 20)]) "1.2.3.4" = 2 := by decide

/-- C2: if the durable read issued by the blocked check throws, the check
catches the error and returns false with the state unchanged — the subject
is treated as not blocked and no error reaches the caller — for both the
IP and the user variant of isBlocked. -/
theorem c2_isBlocked_failOpen (s : IPSState) (subj : String) (now : Nat)
    (fl : Bool) (e : StoreErr) :
    (isIPBlockedEx s subj now fl = Except.error e →
      isIPBlockedCatch s subj now fl = (false, s)) ∧
    (isUserBlockedEx s subj now fl = Except.error e →
      isUserBlockedCatch s subj now fl = (false, s)) := by
  constructor
  · intro h
    unfold isIPBlockedCatch
    rw [h]
  · intro h
    unfold isUserBlockedCatch
    rw [h]

theorem c2_isBlocked_failOpen_witness :
    isIPBlockedCatch emptyState "3.3.3.3" 0 true = (false, emptyState) ∧
    isUserBlockedCatch emptyState "u9" 0 true = (false, emptyState) :=
  ⟨(c2_isBlocked_failOpen emptyState "3.3.3.3" 0 true
      StoreErr.unavailable).1 rfl,
   (c2_isBlocked_failOpen emptyState "u9" 0 true
      StoreErr.unavailable).2 rfl⟩

/-- C3 (amended): for a non-loopback subject not currently blocked, two
sequential blockSubject calls — the second made while the first block is
still unexpired — return the blocked outcome (true) then the
alreadyBlocked outcome (false), exactly one blocklist entry for the
subject is created, the second call changes nothing, and no error is
raised (blockIP is total here).  The original claim fails for loopback
subjects, which are refused rather than blocked (see the counterexample). -/
theorem c3_blockIP_idempotent (s : IPSState) (ip r1 r2 : String)
    (d1 d2 now1 now2 : Nat) (hl : isLocalhost ip = false)
    (hnb : (isIPBlocked s ip now1).1 = false) (hseq : now2 < now1 + d1) :
    (blockIP s ip r1 d1 now1).1 = true ∧
    (blockIP (blockIP s ip r1 d1 now1).2 ip r2 d2 now2).1 = false ∧
    (blockIP (blockIP s ip r1 d1 now1).2 ip r2 d2 now2).2 =
      (blockIP s ip r1 d1 now1).2 ∧
    entryCount (blockIP s ip r1 d1 now1).2 ip = entryCount s ip + 1 := by
  have h1 := blockIP_not_blocked s ip r1 d1 now1 hl hnb
  have hcache : cacheSaysBlocked (blockIP s ip r1 d1 now1).2.cacheIPs ip
      now2 = true := by
    rw [h1]
    dsimp only
    rw [cacheSaysBlocked_setK_self]
    exact decide_eq_true hseq
  have hib := isIPBlocked_cacheHit (blockIP s ip r1 d1 now1).2 ip now2 hl
    hcache
  have h2 := blockIP_when_blocked (blockIP s ip r1 d1 now1).2 ip r2 d2 now2
    hl (by rw [hib])
  refine ⟨by rw [h1], by rw [h2], by rw [h2, hib], ?_⟩
  rw [h1]
  unfold entryCount
  dsimp only
  rw [List.countP_append]
  simp

theorem c3_blockIP_idempotent_witness :
    (blockIP emptyState "4.4.4.4" "abuse" 10 0).1 = true ∧
    (blockIP (blockIP emptyState "4.4.4.4" "abuse" 10 0).2 "4.4.4.4"
      "abuse" 10 3).1 = false ∧
    (blockIP (blockIP emptyState "4.4.4.4" "abuse" 10 0).2 "4.4.4.4"
      "abuse" 10 3).2 = (blockIP emptyState "4.4.4.4" "abuse" 10 0).2 ∧
    entryCount (blockIP emptyState "4.4.4.4" "abuse" 10 0).2 "4.4.4.4" =
      entryCount emptyState "4.4.4.4" + 1 :=
  c3_blockIP_idempotent emptyState "4.4.4.4" "abuse" "abuse" 10 10 0 3
    (by decide) (by decide) (by decide)

/-- C3 counterexample: the loopback address 127.0.0.1 is a subject that is
not currently blocked, yet the first blockSubject call returns the refusal
false, not the blocked outcome, and creates no entry. -/
theorem c3_counterexample_loopback_not_blocked :
    (isIPBlocked emptyState "127.0.0.1" 0).1 = false ∧
    (blockIP emptyState "127.0.0.1" "abuse" 10 0).1 = false ∧
    entryCount (blockIP emptyState "127.0.0.1" "abuse" 10 0).2 "127.0.0.1"
      = entryCount emptyState "127.0.0.1" := by decide

/-- C5 (amended): blockSubject on a loopback identity returns false — not
an error, and no blocklist entry or cache entry is created: the state is
returned entirely unchanged.  The outcome value is distinct from the
blocked outcome (true) but identical to the alreadyBlocked outcome
(false), not distinct from it as claimed (see the counterexample). -/
theorem c5_loopback_refused (s : IPSState) (r : String) (d now : Nat) :
    blockIP s "127.0.0.1" r d now = (false, s) ∧
    blockIP s "::1" r d now = (false, s) := by
  constructor <;> (unfold blockIP; rw [if_pos (by decide)])

/-- C5 counterexample: the refused-by-policy outcome is not distinct from
the alreadyBlocked outcome — blockSubject on the loopback 127.0.0.1 and
blockSubject on the already actively blocked 5.5.5.5 both return the same
value false (and the alreadyBlocked call creates no entry either). -/
theorem c5_counterexample_outcome_collision :
    (blockIP sAlready "127.0.0.1" "abuse" 10 0).1 = false ∧
    (blockIP sAlready "5.5.5.5" "abuse" 10 0).1 = false ∧
    (blockIP sAlready "5.5.5.5" "abuse" 10 0).2.blocklist =
      sAlready.blocklist := by decide

/-- C8 (amended): the IP blocked check never writes the durable store (the
blocklist and the user documents after the call equal those before); the
user blocked check is likewise write-free except in the auto-unblock case,
when the cache misses and the account's block has expired, where it clears
the account's block fields (see the counterexample). -/
theorem c8_isBlocked_readonly (s : IPSState) (subj : String) (now : Nat) :
    ((isIPBlocked s subj now).2.blocklist = s.blocklist ∧
      (isIPBlocked s subj now).2.users = s.users) ∧
    (¬ ExpiredAccountBlock s subj now →
      (isUserBlocked s subj now).2.blocklist = s.blocklist ∧
      (isUserBlocked s subj now).2.users = s.users) := by
  refine ⟨⟨isIPBlockedCatch_blocklist s subj now false,
    isIPBlockedCatch_users s subj now false⟩, ?_⟩
  intro hne
  unfold isUserBlocked
  rcases isUserBlockedCatch_spec s subj now false with ⟨_, he⟩ |
    ⟨_, hf, _⟩ | ⟨hc, _, ⟨hu0, he⟩ | ⟨u, hu, ⟨hb0, he⟩ | ⟨hb1, hbu, he⟩ |
      ⟨t, hb, hbu, hlt, he⟩ | ⟨t, hb, hbu, hge, he⟩⟩⟩
  · rw [he]
    exact ⟨rfl, rfl⟩
  · cases hf
  · rw [he]
    exact ⟨rfl, rfl⟩
  · rw [he]
    exact ⟨rfl, rfl⟩
  · rw [he]
    exact ⟨rfl, rfl⟩
  · rw [he]
    exact ⟨rfl, rfl⟩
  · exact absurd ⟨hc, u, hu, hb, t, hbu, hge⟩ hne

theorem c8_isBlocked_readonly_witness :
    (isUserBlocked emptyState "u1" 0).2.blocklist = emptyState.blocklist ∧
    (isUserBlocked emptyState "u1" 0).2.users = emptyState.users :=
  (c8_isBlocked_readonly emptyState "u1" 0).2 (by
    intro h
    obtain ⟨_, u, hu, _⟩ := h
    simp [lookupK, emptyState] at hu)

/-- C8 counterexample: on a state holding the account u1 blocked with an
expired blockUntil, the blocked check for u1 is not read-only — it writes
the auto-unblock back to the users_ips collection. -/
theorem c8_counterexample_expired_unblock_writes :
    (isUserBlocked sExpiredUser "u1" 10).2.users ≠ sExpiredUser.users := by
  decide

theorem cacheSaysBlocked_of_lookup_none (c : List (String × Nat))
    (k : String) (now : Nat) (h : lookupK c k = none) :
    cacheSaysBlocked c k now = false := by
  unfold cacheSaysBlocked
  rw [h]

theorem findActiveUnexpired_none_of_inactive (bl : List BlockEntry)
    (ip : String) (now : Nat)
    (h : ∀ e ∈ bl, e.ip = ip → e.active = false) :
    findActiveUnexpired bl ip now = none := by
  unfold findActiveUnexpired
  refine List.find?_eq_none.mpr ?_
  intro e he
  unfold auPred
  simp only [Bool.and_eq_true, decide_eq_true_eq, not_and]
  intro hip
  have hfalse := h e he hip.1
  rw [hip.2] at hfalse
  cases hfalse

theorem isIPBlocked_miss (s : IPSState) (ip : String) (now : Nat)
    (hl : isLocalhost ip = false)
    (hc : cacheSaysBlocked s.cacheIPs ip now = false)
    (hq : findActiveUnexpired s.blocklist ip now = none) :
    isIPBlocked s ip now = (false, s) := by
  rcases isIPBlockedCatch_spec s ip now false with ⟨h1, _⟩ | ⟨_, hc2, _⟩ |
    ⟨_, _, hff, _⟩ | ⟨_, _, _, ⟨e, hq2, _⟩ | ⟨_, he⟩⟩
  · rw [hl] at h1
    cases h1
  · rw [hc] at hc2
    cases hc2
  · cases hff
  · rw [hq] at hq2
    cases hq2
  · exact he

theorem checkRateLimit_first (s : IPSState) (ip : String) (thr w now : Nat)
    (hd : lookupK s.rateLimits ip = none) (hthr : 1 ≤ thr) :
    checkRateLimit s ip thr w now =
      (true,
       { s with
         rateLimits := setK s.rateLimits ip (⟨1, now⟩ : RateData) }) := by
  unfold checkRateLimit
  rw [hd]
  simp only [Option.getD_none]
  rw [if_neg (show ¬ (w < now - now) from by omega)]
  dsimp only
  rw [if_neg (show ¬ (thr < 0 + 1) from by omega)]

theorem checkRateLimit_step (s : IPSState) (ip : String) (thr w now c f : Nat)
    (hd : lookupK s.rateLimits ip = some (⟨c, f⟩ : RateData))
    (hw : now ≤ f + w) (hc : c + 1 ≤ thr) :
    checkRateLimit s ip thr w now =
      (true,
       { s with
         rateLimits := setK s.rateLimits ip (⟨c + 1, f⟩ : RateData) }) := by
  unfold checkRateLimit
  rw [hd]
  simp only [Option.getD_some]
  rw [if_neg (show ¬ (w < now - f) from by omega)]
  dsimp only
  rw [if_neg (show ¬ (thr < c + 1) from by omega)]

theorem checkRateLimit_exceed (s : IPSState) (ip : String)
    (thr w now c f : Nat)
    (hd : lookupK s.rateLimits ip = some (⟨c, f⟩ : RateData))
    (hw : now ≤ f + w) (hc : thr < c + 1) :
    checkRateLimit s ip thr w now =
      (false,
       (blockIP
         { s with
           rateLimits := setK s.rateLimits ip (⟨c + 1, f⟩ : RateData) }
         ip "Rate limit exceeded" blockDuration now).2) := by
  unfold checkRateLimit
  rw [hd]
  simp only [Option.getD_some]
  rw [if_neg (show ¬ (w < now - f) from by omega)]
  dsimp only
  rw [if_pos hc]

theorem checkRateLimit_reset (s : IPSState) (ip : String) (thr w now c f : Nat)
    (hd : lookupK s.rateLimits ip = some (⟨c, f⟩ : RateData))
    (hw : f + w < now) (hthr : 1 ≤ thr) :
    checkRateLimit s ip thr w now =
      (true,
       { s with
         rateLimits := setK s.rateLimits ip (⟨1, now⟩ : RateData) }) := by
  unfold checkRateLimit
  rw [hd]
  simp only [Option.getD_some]
  rw [if_pos (show w < now - f from by omega)]
  dsimp only
  rw [if_neg (show ¬ (thr < 0 + 1) from by omega)]

theorem rateSeq_from_set (ip : String) (thr w : Nat) :
    ∀ (ts : List Nat) (s : IPSState) (c f : Nat),
    (∀ t ∈ ts, t ≤ f + w) → c + ts.length ≤ thr →
    rateSeq
      { s with rateLimits := setK s.rateLimits ip (⟨c, f⟩ : RateData) }
      ip thr w ts =
      (List.replicate ts.length true,
       { s with
         rateLimits := setK s.rateLimits ip
           (⟨c + ts.length, f⟩ : RateData) }) := by
  intro ts
  induction ts with
  | nil =>
    intro s c f _ _
    simp [rateSeq]
  | cons t ts ih =>
    intro s c f hts hc
    have hd : lookupK (setK s.rateLimits ip (⟨c, f⟩ : RateData)) ip =
        some (⟨c, f⟩ : RateData) := lookupK_setK_self _ _ _
    have hstep := checkRateLimit_step
      { s with rateLimits := setK s.rateLimits ip (⟨c, f⟩ : RateData) }
      ip thr w t c f hd (hts t (by simp)) (by simp at hc; omega)
    have hcol :
        ({ s with
           rateLimits := setK (setK s.rateLimits ip (⟨c, f⟩ : RateData)) ip
             (⟨c + 1, f⟩ : RateData) } : IPSState) =
        { s with
          rateLimits := setK s.rateLimits ip (⟨c + 1, f⟩ : RateData) } := by
      rw [setK_setK]
    simp only [rateSeq]
    rw [hstep]
    dsimp only
    rw [hcol]
    rw [ih s (c + 1) f (fun u hu => hts u (by simp [hu])) (by
      have hlen : (t :: ts).length = ts.length + 1 := by simp
      omega)]
    have harith : c + 1 + ts.length = c + (ts.length + 1) := by omega
    rw [harith]
    simp [List.replicate_succ]

theorem rateSeq_append (ip : String) (thr w : Nat) :
    ∀ (l1 l2 : List Nat) (s : IPSState),
    rateSeq s ip thr w (l1 ++ l2) =
      ((rateSeq s ip thr w l1).1 ++
        (rateSeq (rateSeq s ip thr w l1).2 ip thr w l2).1,
       (rateSeq (rateSeq s ip thr w l1).2 ip thr w l2).2) := by
  intro l1
  induction l1 with
  | nil =>
    intro l2 s
    simp [rateSeq]
  | cons t ts ih =>
    intro l2 s
    simp only [List.cons_append, rateSeq]
    simp only [List.append_eq]
    rw [ih]

/-- C6 (amended): with threshold 10 and window 60000 ms, for an ip with no
prior window state (non-loopback and not currently blocked), ten requests
inside the window are all admitted; the eleventh inside the window is
denied and blockSubject runs on the ip with reason "Rate limit exceeded" —
capitalized thus in the code, not "rate limit exceeded" as the claim
quotes (see the counterexample) — appending one active blocklist entry and
writing the cache through; and any request arriving after the window has
elapsed resets the window to count 1, windowStart now, and is admitted. -/
theorem c6_rate_limiter (s : IPSState) (ip : String) (t1 t11 : Nat)
    (ts : List Nat) (hlen : ts.length = 9)
    (hts : ∀ u ∈ ts, u ≤ t1 + 60000) (h11 : t11 ≤ t1 + 60000)
    (hfresh : lookupK s.rateLimits ip = none)
    (hl : isLocalhost ip = false)
    (hcache : cacheSaysBlocked s.cacheIPs ip t11 = false)
    (hstore : findActiveUnexpired s.blocklist ip t11 = none) :
    rateSeq s ip 10 60000 (t1 :: (ts ++ [t11])) =
      (List.replicate 10 true ++ [false],
       { s with
         rateLimits := setK s.rateLimits ip (⟨11, t1⟩ : RateData),
         blocklist := s.blocklist ++
           [{ ip := ip, reason := "Rate limit exceeded", createdAt := t11,
              expiresAt := t11 + blockDuration, active := true }],
         cacheIPs := setK s.cacheIPs ip (t11 + blockDuration) }) ∧
    (∀ (s2 : IPSState) (ip2 : String) (c f tr : Nat),
      lookupK s2.rateLimits ip2 = some (⟨c, f⟩ : RateData) →
      f + 60000 < tr →
      checkRateLimit s2 ip2 10 60000 tr =
        (true,
         { s2 with
           rateLimits := setK s2.rateLimits ip2 (⟨1, tr⟩ : RateData) })) := by
  constructor
  · have e1 := checkRateLimit_first s ip 10 60000 t1 hfresh (by omega)
    have e2 := rateSeq_from_set ip 10 60000 ts s 1 t1 hts (by omega)
    have hd10 :
        lookupK
          ({ s with
             rateLimits := setK s.rateLimits ip
                             (⟨1 + ts.length, t1⟩ : RateData) } :
            IPSState).rateLimits ip =
          some (⟨1 + ts.length, t1⟩ : RateData) :=
      lookupK_setK_self _ _ _
    have e3 := checkRateLimit_exceed
      { s with
        rateLimits := setK s.rateLimits ip
                        (⟨1 + ts.length, t1⟩ : RateData) }
      ip 10 60000 t11 (1 + ts.length) t1 hd10 h11 (by omega)
    have hmiss := isIPBlocked_miss
      { s with
        rateLimits := setK (setK s.rateLimits ip
                        (⟨1 + ts.length, t1⟩ : RateData)) ip
                        (⟨1 + ts.length + 1, t1⟩ : RateData) }
      ip t11 hl hcache hstore
    have e4 := blockIP_not_blocked
      { s with
        rateLimits := setK (setK s.rateLimits ip
                        (⟨1 + ts.length, t1⟩ : RateData)) ip
                        (⟨1 + ts.length + 1, t1⟩ : RateData) }
      ip "Rate limit exceeded" blockDuration t11 hl (by rw [hmiss])
    simp only [rateSeq]
    rw [e1]
    dsimp only
    rw [rateSeq_append ip 10 60000 ts [t11]]
    rw [e2]
    dsimp only
    simp only [rateSeq]
    rw [e3]
    dsimp only
    rw [e4]
    dsimp only
    rw [setK_setK]
    rw [hlen]
    norm_num [List.replicate_succ]
  · intro s2 ip2 c f tr hd hw
    exact checkRateLimit_reset s2 ip2 10 60000 tr c f hd hw (by omega)

theorem c6_rate_limiter_witness :
    rateSeq emptyState "9.9.9.9" 10 60000
        (0 :: (List.replicate 9 0 ++ [0])) =
      (List.replicate 10 true ++ [false],
       { emptyState with
         rateLimits := setK emptyState.rateLimits "9.9.9.9"
           (⟨11, 0⟩ : RateData),
         blocklist := emptyState.blocklist ++
           [{ ip := "9.9.9.9", reason := "Rate limit exceeded",
              createdAt := 0, expiresAt := 0 + blockDuration,
              active := true }],
         cacheIPs := setK emptyState.cacheIPs "9.9.9.9"
           (0 + blockDuration) }) :=
  (c6_rate_limiter emptyState "9.9.9.9" 0 0 (List.replicate 9 0)
    (by decide) (by decide) (by decide) rfl (by decide) rfl rfl).1

set_option maxRecDepth 4000 in
/-- C6 counterexample: eleven requests from a fresh ip inside one window
produce exactly one blocklist entry, admissions true ten times then false,
and no entry carries the claimed reason "rate limit exceeded" — the code
writes "Rate limit exceeded". -/
theorem c6_counterexample_reason_case :
    (rateSeq emptyState "9.9.9.9" 10 60000
        (List.replicate 11 0)).2.blocklist.countP
      (fun e => decide (e.reason = "rate limit exceeded")) = 0 ∧
    (rateSeq emptyState "9.9.9.9" 10 60000
        (List.replicate 11 0)).2.blocklist.length = 1 ∧
    (rateSeq emptyState "9.9.9.9" 10 60000 (List.replicate 11 0)).1 =
      List.replicate 10 true ++ [false] := by decide

theorem isIPBlockedCatch_suspicious (s : IPSState) (ip : String) (now : Nat)
    (fl : Bool) :
    (isIPBlockedCatch s ip now fl).2.suspicious = s.suspicious := by
  obtain ⟨c, hc⟩ := isIPBlockedCatch_snd s ip now fl
  rw [hc]

theorem analyzeTraffic_blocked (s : IPSState) (ip : String) (sus : Bool)
    (now : Nat) (h : (isIPBlocked s ip now).1 = true) :
    analyzeTraffic s ip sus now = (false, (isIPBlocked s ip now).2) := by
  unfold analyzeTraffic
  dsimp only
  rw [h, if_pos rfl]

theorem analyzeTraffic_clean (s : IPSState) (ip : String) (now : Nat)
    (h : (isIPBlocked s ip now).1 = false) :
    analyzeTraffic s ip false now = (true, (isIPBlocked s ip now).2) := by
  unfold analyzeTraffic
  dsimp only
  rw [h, if_neg (by simp), if_neg (by simp)]

theorem analyzeTraffic_sus_under (s : IPSState) (ip : String) (now c : Nat)
    (hl : isLocalhost ip = false)
    (hc : cacheSaysBlocked s.cacheIPs ip now = false)
    (hst : findActiveUnexpired s.blocklist ip now = none)
    (hcnt : (lookupK s.suspicious ip).getD 0 = c) (hlt : c + 1 < 5) :
    analyzeTraffic s ip true now =
      (false,
       { s with
         suspicious := setK s.suspicious ip (c + 1),
         audit := s.audit ++ [{ ip := ip, timestamp := now }] }) := by
  have hib := isIPBlocked_miss s ip now hl hc hst
  unfold analyzeTraffic
  rw [hib]
  dsimp only
  rw [hcnt]
  rw [if_neg (show ¬ (suspiciousThreshold ≤ c + 1) from by
    unfold suspiciousThreshold
    omega)]
  rw [if_neg (by simp), if_pos rfl]

theorem analyzeTraffic_sus_block (s : IPSState) (ip : String) (now c : Nat)
    (hl : isLocalhost ip = false)
    (hc : cacheSaysBlocked s.cacheIPs ip now = false)
    (hst : findActiveUnexpired s.blocklist ip now = none)
    (hcnt : (lookupK s.suspicious ip).getD 0 = c) (hge : 5 ≤ c + 1) :
    analyzeTraffic s ip true now =
      (false,
       (blockIP { s with suspicious := setK s.suspicious ip (c + 1) } ip
         "Multiple suspicious activities detected" blockDuration now).2) := by
  have hib := isIPBlocked_miss s ip now hl hc hst
  unfold analyzeTraffic
  rw [hib]
  dsimp only
  rw [hcnt]
  rw [if_pos (show suspiciousThreshold ≤ c + 1 from by
    unfold suspiciousThreshold
    omega)]
  rw [if_neg (by simp), if_pos rfl]

/-- C7 (amended): for an unblocked, non-loopback subject with no prior
score, each of the first four requests matching a suspicious signature
increments the score, appends an audit record, and is denied while the
subject stays unblocked; the fifth matching request triggers blockSubject
with reason "Multiple suspicious activities detected" — capitalized thus
in the code, not "multiple suspicious activities detected" as the claim
quotes (see the counterexample) — and is denied; clean requests are
admitted with the score untouched; and an already blocked subject is
denied without scoring. -/
theorem c7_suspicious_scorer (s : IPSState) (ip : String)
    (t1 t2 t3 t4 t5 : Nat) (hl : isLocalhost ip = false)
    (hcache : lookupK s.cacheIPs ip = none)
    (hstore : ∀ e ∈ s.blocklist, e.ip = ip → e.active = false)
    (hfresh : lookupK s.suspicious ip = none) :
    inspectSeq s ip [(true, t1), (true, t2), (true, t3), (true, t4)] =
      ([false, false, false, false],
       { s with
         suspicious := setK s.suspicious ip 4,
         audit := s.audit ++
           [{ ip := ip, timestamp := t1 }, { ip := ip, timestamp := t2 },
            { ip := ip, timestamp := t3 }, { ip := ip, timestamp := t4 }] }) ∧
    (isIPBlocked
      { s with
        suspicious := setK s.suspicious ip 4,
        audit := s.audit ++
          [{ ip := ip, timestamp := t1 }, { ip := ip, timestamp := t2 },
           { ip := ip, timestamp := t3 }, { ip := ip, timestamp := t4 }] }
      ip t5).1 = false ∧
    inspectSeq s ip
        [(true, t1), (true, t2), (true, t3), (true, t4), (true, t5)] =
      ([false, false, false, false, false],
       { s with
         suspicious := setK s.suspicious ip 5,
         audit := s.audit ++
           [{ ip := ip, timestamp := t1 }, { ip := ip, timestamp := t2 },
            { ip := ip, timestamp := t3 }, { ip := ip, timestamp := t4 }],
         blocklist := s.blocklist ++
           [{ ip := ip, reason := "Multiple suspicious activities detected",
              createdAt := t5, expiresAt := t5 + blockDuration,
              active := true }],
         cacheIPs := setK s.cacheIPs ip (t5 + blockDuration) }) ∧
    (∀ (s2 : IPSState) (ip2 : String) (t : Nat),
      (isIPBlocked s2 ip2 t).1 = false →
      analyzeTraffic s2 ip2 false t = (true, (isIPBlocked s2 ip2 t).2) ∧
      (analyzeTraffic s2 ip2 false t).2.suspicious = s2.suspicious) ∧
    (∀ (s2 : IPSState) (ip2 : String) (t : Nat) (sus : Bool),
      (isIPBlocked s2 ip2 t).1 = true →
      analyzeTraffic s2 ip2 sus t = (false, (isIPBlocked s2 ip2 t).2) ∧
      (analyzeTraffic s2 ip2 sus t).2.suspicious = s2.suspicious) := by
  have e1 := analyzeTraffic_sus_under s ip t1 0 hl
    (cacheSaysBlocked_of_lookup_none _ _ _ hcache)
    (findActiveUnexpired_none_of_inactive _ _ _ hstore)
    (by simp [hfresh]) (by omega)
  have e2 := analyzeTraffic_sus_under
    { s with
      suspicious := setK s.suspicious ip (0 + 1),
      audit := s.audit ++ [{ ip := ip, timestamp := t1 }] }
    ip t2 1 hl (cacheSaysBlocked_of_lookup_none _ _ _ hcache)
    (findActiveUnexpired_none_of_inactive _ _ _ hstore)
    (by norm_num [lookupK_setK_self]) (by omega)
  have e3 := analyzeTraffic_sus_under
    { s with
      suspicious := setK (setK s.suspicious ip (0 + 1)) ip (1 + 1),
      audit := s.audit ++ [{ ip := ip, timestamp := t1 }] ++
        [{ ip := ip, timestamp := t2 }] }
    ip t3 2 hl (cacheSaysBlocked_of_lookup_none _ _ _ hcache)
    (findActiveUnexpired_none_of_inactive _ _ _ hstore)
    (by norm_num [lookupK_setK_self]) (by omega)
  have e4 := analyzeTraffic_sus_under
    { s with
      suspicious := setK (setK (setK s.suspicious ip (0 + 1)) ip (1 + 1))
        ip (2 + 1),
      audit := s.audit ++ [{ ip := ip, timestamp := t1 }] ++
        [{ ip := ip, timestamp := t2 }] ++ [{ ip := ip, timestamp := t3 }] }
    ip t4 3 hl (cacheSaysBlocked_of_lookup_none _ _ _ hcache)
    (findActiveUnexpired_none_of_inactive _ _ _ hstore)
    (by norm_num [lookupK_setK_self]) (by omega)
  have e5 := analyzeTraffic_sus_block
    { s with
      suspicious := setK (setK (setK (setK s.suspicious ip (0 + 1)) ip
        (1 + 1)) ip (2 + 1)) ip (3 + 1),
      audit := s.audit ++ [{ ip := ip, timestamp := t1 }] ++
        [{ ip := ip, timestamp := t2 }] ++ [{ ip := ip, timestamp := t3 }] ++
        [{ ip := ip, timestamp := t4 }] }
    ip t5 4 hl (cacheSaysBlocked_of_lookup_none _ _ _ hcache)
    (findActiveUnexpired_none_of_inactive _ _ _ hstore)
    (by norm_num [lookupK_setK_self]) (by omega)
  have e6 := blockIP_not_blocked
    { s with
      suspicious := setK (setK (setK (setK (setK s.suspicious ip (0 + 1)) ip
        (1 + 1)) ip (2 + 1)) ip (3 + 1)) ip (4 + 1),
      audit := s.audit ++ [{ ip := ip, timestamp := t1 }] ++
        [{ ip := ip, timestamp := t2 }] ++ [{ ip := ip, timestamp := t3 }] ++
        [{ ip := ip, timestamp := t4 }] }
    ip "Multiple suspicious activities detected" blockDuration t5 hl
    (by rw [isIPBlocked_miss
      { s with
        suspicious := setK (setK (setK (setK (setK s.suspicious ip (0 + 1))
          ip (1 + 1)) ip (2 + 1)) ip (3 + 1)) ip (4 + 1),
        audit := s.audit ++ [{ ip := ip, timestamp := t1 }] ++
          [{ ip := ip, timestamp := t2 }] ++
          [{ ip := ip, timestamp := t3 }] ++
          [{ ip := ip, timestamp := t4 }] }
      ip t5 hl (cacheSaysBlocked_of_lookup_none _ _ _ hcache)
      (findActiveUnexpired_none_of_inactive _ _ _ hstore)])
  refine ⟨?_, ?_, ?_, ?_, ?_⟩
  · simp only [inspectSeq]
    rw [e1]
    dsimp only
    rw [e2]
    dsimp only
    rw [e3]
    dsimp only
    rw [e4]
    dsimp only
    norm_num [setK_setK]
  · rw [isIPBlocked_miss
      { s with
        suspicious := setK s.suspicious ip 4,
        audit := s.audit ++
          [{ ip := ip, timestamp := t1 }, { ip := ip, timestamp := t2 },
           { ip := ip, timestamp := t3 }, { ip := ip, timestamp := t4 }] }
      ip t5 hl (cacheSaysBlocked_of_lookup_none _ _ _ hcache)
      (findActiveUnexpired_none_of_inactive _ _ _ hstore)]
  · simp only [inspectSeq]
    rw [e1]
    dsimp only
    rw [e2]
    dsimp only
    rw [e3]
    dsimp only
    rw [e4]
    dsimp only
    rw [e5]
    dsimp only
    rw [e6]
    dsimp only
    norm_num [setK_setK]
  · intro s2 ip2 t h
    have hcl := analyzeTraffic_clean s2 ip2 t h
    refine ⟨hcl, ?_⟩
    rw [hcl]
    exact isIPBlockedCatch_suspicious s2 ip2 t false
  · intro s2 ip2 t sus h
    have hbl := analyzeTraffic_blocked s2 ip2 sus t h
    refine ⟨hbl, ?_⟩
    rw [hbl]
    exact isIPBlockedCatch_suspicious s2 ip2 t false

theorem c7_suspicious_scorer_witness :
    inspectSeq emptyState "8.8.8.8"
        [(true, 0), (true, 0), (true, 0), (true, 0), (true, 0)] =
      ([false, false, false, false, false],
       { emptyState with
         suspicious := setK emptyState.suspicious "8.8.8.8" 5,
         audit := emptyState.audit ++
           [{ ip := "8.8.8.8", timestamp := 0 },
            { ip := "8.8.8.8", timestamp := 0 },
            { ip := "8.8.8.8", timestamp := 0 },
            { ip := "8.8.8.8", timestamp := 0 }],
         blocklist := emptyState.blocklist ++
           [{ ip := "8.8.8.8",
              reason := "Multiple suspicious activities detected",
              createdAt := 0, expiresAt := 0 + blockDuration,
              active := true }],
         cacheIPs := setK emptyState.cacheIPs "8.8.8.8"
           (0 + blockDuration) }) :=
  (c7_suspicious_scorer emptyState "8.8.8.8" 0 0 0 0 0 (by decide) rfl
    (by simp [emptyState]) rfl).2.2.1

set_option maxRecDepth 4000 in
/-- C7 counterexample: five requests matching a signature from a fresh
subject produce exactly one blocklist entry and five denials, and no entry
carries the claimed reason "multiple suspicious activities detected" — the
code writes "Multiple suspicious activities detected". -/
theorem c7_counterexample_reason_case :
    (inspectSeq emptyState "8.8.8.8"
        (List.replicate 5 (true, 0))).2.blocklist.countP
      (fun e =>
        decide (e.reason = "multiple suspicious activities detected")) = 0 ∧
    (inspectSeq emptyState "8.8.8.8"
        (List.replicate 5 (true, 0))).2.blocklist.length = 1 ∧
    (inspectSeq emptyState "8.8.8.8" (List.replicate 5 (true, 0))).1 =
      List.replicate 5 false := by decide

/-- C4: at the failing input — account u1 with last-known ip 203.0.113.5,
blocked with reason spam, then unblocked — the embedded code shows:
(1) blocking u1 cascades and creates an active IP entry whose derived
reason is the string "User u1 blocked: spam" (there is no cascadeOf field;
the account id is carried only inside the reason text);
(2) unblocking u1 leaves that cascaded IP entry active, because the
cascaded-unblock query matches reason equal to "User u1 blocked", a string
blockUser never writes — contradicting the claim that the entry is found
and deactivated;
(3) the account itself is unblocked; and
(4) unblocking an IP directly touches no account document. -/
theorem c4_cascade_unblock_misses :
    (blockUser sCascade "u1" "spam" 3600000 0).2.blocklist.countP
      (fun e => decide (e.ip = "203.0.113.5") && e.active &&
        decide (e.reason = "User u1 blocked: spam")) = 1 ∧
    (unblockUser (blockUser sCascade "u1" "spam" 3600000 0).2
        "u1").2.blocklist.countP
      (fun e => decide (e.ip = "203.0.113.5") && e.active) = 1 ∧
    (lookupK (unblockUser (blockUser sCascade "u1" "spam" 3600000 0).2
        "u1").2.users "u1").map (fun u => u.blocked) = some false ∧
    (unblockIP (blockUser sCascade "u1" "spam" 3600000 0).2
        "203.0.113.5").2.users =
      (blockUser sCascade "u1" "spam" 3600000 0).2.users := by decide

/-- C9: after a cleanup run at time now, no blocklist entry is both active
and expired (every entry that was active with expiresAt at or before now
has active cleared), entries active and unexpired survive untouched, no
surviving blocked account has a blockUntil that has passed, every
remaining cache entry is unexpired, and the returned count is the number
of deactivated blocklist entries plus cleared accounts plus evicted cache
entries. -/
theorem c9_cleanup_spec (s : IPSState) (now : Nat) :
    (∀ e ∈ (cleanupExpiredBlocks s now).2.blocklist, e.active = true →
      now < e.expiresAt) ∧
    (∀ e ∈ s.blocklist, e.active = true → now < e.expiresAt →
      e ∈ (cleanupExpiredBlocks s now).2.blocklist) ∧
    (∀ p ∈ (cleanupExpiredBlocks s now).2.users, p.2.blocked = true →
      ∀ t, p.2.blockUntil = some t → now < t) ∧
    (∀ p ∈ (cleanupExpiredBlocks s now).2.cacheIPs, now < p.2) ∧
    (∀ p ∈ (cleanupExpiredBlocks s now).2.cacheUsers, now < p.2) ∧
    (cleanupExpiredBlocks s now).1 =
      s.blocklist.countP (expiredActive now) +
        s.users.countP (fun p => expiredBlockedUser now p.2) +
        (s.cacheIPs.countP (fun p => decide (p.2 ≤ now)) +
          s.cacheUsers.countP (fun p => decide (p.2 ≤ now))) := by
  refine ⟨?_, ?_, ?_, ?_, ?_, rfl⟩
  · intro e he hact
    unfold cleanupExpiredBlocks at he
    dsimp only at he
    obtain ⟨a, ha, hfa⟩ := List.mem_map.mp he
    by_cases hcond : expiredActive now a = true
    · rw [if_pos hcond] at hfa
      rw [← hfa] at hact
      cases hact
    · rw [if_neg hcond] at hfa
      subst hfa
      unfold expiredActive at hcond
      rw [hact] at hcond
      simpa using hcond
  · intro e he hact hlt
    unfold cleanupExpiredBlocks
    dsimp only
    refine List.mem_map.mpr ⟨e, he, ?_⟩
    rw [if_neg]
    unfold expiredActive
    rw [hact]
    simp
    omega
  · intro p hp hb t ht
    unfold cleanupExpiredBlocks at hp
    dsimp only at hp
    obtain ⟨a, ha, hfa⟩ := List.mem_map.mp hp
    by_cases hcond : expiredBlockedUser now a.2 = true
    · rw [if_pos hcond] at hfa
      rw [← hfa] at hb
      cases hb
    · rw [if_neg hcond] at hfa
      subst hfa
      unfold expiredBlockedUser at hcond
      rw [hb, ht] at hcond
      simpa using hcond
  · intro p hp
    unfold cleanupExpiredBlocks at hp
    dsimp only at hp
    have := List.mem_filter.mp hp
    exact of_decide_eq_true this.2
  · intro p hp
    unfold cleanupExpiredBlocks at hp
    dsimp only at hp
    have := List.mem_filter.mp hp
    exact of_decide_eq_true this.2

theorem c9_cleanup_spec_witness :
    (cleanupExpiredBlocks sAlready 200).1 =
      sAlready.blocklist.countP (expiredActive 200) +
        sAlready.users.countP (fun p => expiredBlockedUser 200 p.2) +
        (sAlready.cacheIPs.countP (fun p => decide (p.2 ≤ 200)) +
          sAlready.cacheUsers.countP (fun p => decide (p.2 ≤ 200))) :=
  (c9_cleanup_spec sAlready 200).2.2.2.2.2

/-- C10: the IP blocked check reports the loopback identities unblocked in
every state and returns the state unchanged — the answer is independent of
the cache and the store, even when an active, unexpired blocklist entry for
the address exists. -/
theorem c10_loopback_never_blocked (s : IPSState) (now : Nat) :
    isIPBlocked s "127.0.0.1" now = (false, s) ∧
    isIPBlocked s "::1" now = (false, s) := by
  constructor
  · rcases isIPBlockedCatch_spec s "127.0.0.1" now false with ⟨_, he⟩ |
      ⟨hl, _, _⟩ | ⟨hl, _, _, _⟩ | ⟨hl, _, _, _⟩
    · exact he
    all_goals rw [show isLocalhost "127.0.0.1" = true from by decide] at hl
    all_goals cases hl
  · rcases isIPBlockedCatch_spec s "::1" now false with ⟨_, he⟩ |
      ⟨hl, _, _⟩ | ⟨hl, _, _, _⟩ | ⟨hl, _, _, _⟩
    · exact he
    all_goals rw [show isLocalhost "::1" = true from by decide] at hl
    all_goals cases hl

end IPSec
